import Mathlib

/-!
Verification of the aerospike-code-challenge demonstration client.

The program (src/main.go) connects to a cluster, lists namespaces, creates the
"aerospike" namespace, creates a "hello-world" pod in it, queries pods by label
cluster-wide, and on cleanup deletes the pod and then the namespace.  It also
registers informer callbacks (onPodAdd / onPodUpdate / onPodDelete) for pod
lifecycle events.

The cluster API client is an external collaborator; its operation semantics
(failure with NotFound / AlreadyExists, success effects) are taken from the
specification of the Resource Client interface.  `Run`, `Cleanup` and
`mainModel` below are shallow embeddings of the functions of the same names in
src/main.go, instrumented with a trace of the one-shot steps actually issued.
-/

namespace Aerospike

/-- A container of a pod spec: `v1.Container` restricted to the fields the
program sets (Name, Image). -/
structure Container where
  Name : String
  Image : String
deriving DecidableEq

/-- A pod: `v1.Pod` restricted to the fields the program reads or sets
(metadata name / namespace / labels, spec containers). -/
structure Pod where
  Name : String
  Namespace : String
  Labels : List (String × String)
  Containers : List Container
deriving DecidableEq

/-- The reduced pod view from src/main.go (`type SimplePod`). -/
structure SimplePod where
  Name : String
  Namespace : String
deriving DecidableEq

/-- src/main.go `SimplePodFromPod`: project a pod to its name and namespace. -/
def SimplePodFromPod (pod : Pod) : SimplePod :=
  { Name := pod.Name, Namespace := pod.Namespace }

/-- The cluster state visible to the program: the set of namespaces and the
set of pods, as lists. -/
structure Cluster where
  Namespaces : List String
  Pods : List Pod
deriving DecidableEq

/-- Identity of a pod: (namespace, name). -/
def podKey (p : Pod) : String × String := (p.Namespace, p.Name)

/-- Error taxonomy of the Resource Client (spec section 7). -/
inductive ApiError where
  | NotFound
  | AlreadyExists
  | Unavailable
deriving DecidableEq

/-- The six one-shot steps the program issues against the cluster client. -/
inductive Step where
  | ListNamespaces
  | CreateNamespace
  | CreatePod
  | QueryPodsByLabel
  | DeletePod
  | DeleteNamespace
deriving DecidableEq

/-- src/main.go `const namespaceName = "aerospike"`. -/
def namespaceName : String := "aerospike"

/-- The label selector used in Run (src/main.go line 116), split into key and
value: `k8s-app=kube-dns`. -/
def queryLabelKey : String := "k8s-app"

/-- Value part of the label selector `k8s-app=kube-dns`. -/
def queryLabelValue : String := "kube-dns"

/-- Modelled from the spec: Resource Client `List` on the namespace
collection; a plain listing never fails in the state model (transport
failures are injected separately through `Faults`). -/
def listNamespacesOp (c : Cluster) : Except ApiError (List String) :=
  .ok c.Namespaces

/-- Modelled from the spec: Resource Client `Create` on the namespace
collection; fails with AlreadyExists if the identity collides. -/
def createNamespaceOp (c : Cluster) (name : String) : Except ApiError Cluster :=
  if name ∈ c.Namespaces then .error .AlreadyExists
  else .ok { c with Namespaces := c.Namespaces ++ [name] }

/-- Modelled from the spec: Resource Client `Create` on the pod collection;
fails with AlreadyExists if the (namespace, name) identity collides. -/
def createPodOp (c : Cluster) (p : Pod) : Except ApiError Cluster :=
  if c.Pods.any (fun q => q.Namespace == p.Namespace && q.Name == p.Name) then
    .error .AlreadyExists
  else .ok { c with Pods := c.Pods ++ [p] }

/-- Whether a pod carries the label `key=value` (k8s label-selector equality
match). -/
def labelMatches (key value : String) (p : Pod) : Bool :=
  p.Labels.lookup key == some value

/-- Modelled from the spec: Resource Client `List` on the pod collection with
an equality label selector and no namespace restriction (the program passes
namespace `""`, i.e. all namespaces). -/
def listPodsByLabelOp (c : Cluster) (key value : String) :
    Except ApiError (List Pod) :=
  .ok (c.Pods.filter (labelMatches key value))

/-- Modelled from the spec: Resource Client `Delete` on the pod collection;
fails with NotFound if absent. -/
def deletePodOp (c : Cluster) (ns name : String) : Except ApiError Cluster :=
  if c.Pods.any (fun q => q.Namespace == ns && q.Name == name) then
    .ok { c with
          Pods := c.Pods.filter (fun q => !(q.Namespace == ns && q.Name == name)) }
  else .error .NotFound

/-- Modelled from the spec: Resource Client `Delete` on the namespace
collection; fails with NotFound if absent. -/
def deleteNamespaceOp (c : Cluster) (name : String) : Except ApiError Cluster :=
  if name ∈ c.Namespaces then
    .ok { c with Namespaces := c.Namespaces.filter (fun n => n != name) }
  else .error .NotFound

/-- A fault environment: transport or server failures injected per step
(`none` means the step behaves per the state model). -/
def Faults : Type := Step → Option ApiError

/-- The fault-free environment. -/
def noFaults : Faults := fun _ => none

/-- Apply an injected fault to a call result: an injected fault replaces the
call result with that error. -/
def withFault {α : Type} (f : Faults) (s : Step) (r : Except ApiError α) :
    Except ApiError α :=
  match f s with
  | some e => .error e
  | none => r

/-- An error surfaced by Run or Cleanup: it identifies the failing step and
wraps the underlying client error (the `fmt.Errorf("failed to ...: %w", err)`
pattern of src/main.go). -/
structure StepError where
  step : Step
  cause : ApiError
deriving DecidableEq

/-- The wrap text that src/main.go attaches to each step failure. -/
def wrapMessage : Step → String
  | .ListNamespaces => "failed to list namespaces"
  | .CreateNamespace => "failed to create " ++ namespaceName ++ " namespace"
  | .CreatePod => "failed to create pod"
  | .QueryPodsByLabel =>
      "failed to list pods with label " ++ queryLabelKey ++ "=" ++ queryLabelValue
  | .DeletePod => "failed to delete pod"
  | .DeleteNamespace => "failed to delete namespace"

/-- What a successful Run reports: the namespace names it listed and the
label-query result projected through SimplePodFromPod. -/
structure RunOutput where
  namespaces : List String
  pods : List SimplePod
deriving DecidableEq

/-- Result of executing a one-shot sequence: the ordered trace of steps
issued, the cluster state reached, and the outcome. -/
structure ExecResult (α : Type) where
  trace : List Step
  cluster : Cluster
  outcome : Except StepError α

/-- The hello-world pod spec built in Run (src/main.go lines 93-106). -/
def helloWorldPod : Pod :=
  { Name := "hello-world"
    Namespace := namespaceName
    Labels := []
    Containers := [{ Name := "hello-world", Image := "hello-world" }] }

/-- src/main.go `Run`: list namespaces, create the aerospike namespace,
create the hello-world pod, then query pods by label cluster-wide; each
failure aborts the sequence and is returned wrapped with the step identity.
(The informer setup on lines 59-68 issues no one-shot cluster call.) -/
def Run (c : Cluster) (f : Faults) : ExecResult RunOutput :=
  match withFault f .ListNamespaces (listNamespacesOp c) with
  | .error e => ⟨[.ListNamespaces], c, .error ⟨.ListNamespaces, e⟩⟩
  | .ok namespaces =>
    match withFault f .CreateNamespace (createNamespaceOp c namespaceName) with
    | .error e =>
        ⟨[.ListNamespaces, .CreateNamespace], c, .error ⟨.CreateNamespace, e⟩⟩
    | .ok c1 =>
      match withFault f .CreatePod (createPodOp c1 helloWorldPod) with
      | .error e =>
          ⟨[.ListNamespaces, .CreateNamespace, .CreatePod], c1,
            .error ⟨.CreatePod, e⟩⟩
      | .ok c2 =>
        match withFault f .QueryPodsByLabel
            (listPodsByLabelOp c2 queryLabelKey queryLabelValue) with
        | .error e =>
            ⟨[.ListNamespaces, .CreateNamespace, .CreatePod, .QueryPodsByLabel],
              c2, .error ⟨.QueryPodsByLabel, e⟩⟩
        | .ok matched =>
            ⟨[.ListNamespaces, .CreateNamespace, .CreatePod, .QueryPodsByLabel],
              c2, .ok ⟨namespaces, matched.map SimplePodFromPod⟩⟩

/-- src/main.go `Cleanup`: delete the hello-world pod, then delete the
aerospike namespace; each failure aborts the sequence. -/
def Cleanup (c : Cluster) (f : Faults) : ExecResult Unit :=
  match withFault f .DeletePod (deletePodOp c namespaceName "hello-world") with
  | .error e => ⟨[.DeletePod], c, .error ⟨.DeletePod, e⟩⟩
  | .ok c1 =>
    match withFault f .DeleteNamespace (deleteNamespaceOp c1 namespaceName) with
    | .error e =>
        ⟨[.DeletePod, .DeleteNamespace], c1, .error ⟨.DeleteNamespace, e⟩⟩
    | .ok c2 => ⟨[.DeletePod, .DeleteNamespace], c2, .ok ()⟩

/-- How the process terminates: success, or a fatal log followed by a
non-zero exit (`log.Fatal()` in src/main.go). -/
inductive ProcessExit where
  | success
  | fatal (msg : String)
deriving DecidableEq

/-- Result of the whole process: the steps issued, the cluster state left
behind, and the exit behaviour. -/
structure MainResult where
  trace : List Step
  cluster : Cluster
  exit : ProcessExit

/-- src/main.go `main` after a successful connection: Run, then — only if Run
returned nil — Cleanup; a failure of either is logged fatally and the process
exits non-zero without running anything further. -/
def mainModel (c : Cluster) (f : Faults) : MainResult :=
  let r := Run c f
  match r.outcome with
  | .error _ => ⟨r.trace, r.cluster, .fatal "failed to run Aerospike Code Challenge"⟩
  | .ok _ =>
    let cl := Cleanup r.cluster f
    match cl.outcome with
    | .error _ =>
        ⟨r.trace ++ cl.trace, cl.cluster,
          .fatal "failed to cleanup after Aerospike Code Challenge"⟩
    | .ok _ => ⟨r.trace ++ cl.trace, cl.cluster, .success⟩

/-- The order of the one-shot steps Run issues. -/
def runOrder : List Step :=
  [.ListNamespaces, .CreateNamespace, .CreatePod, .QueryPodsByLabel]

/-- The order of the one-shot steps Cleanup issues. -/
def cleanupOrder : List Step := [.DeletePod, .DeleteNamespace]

/-- A payload delivered to an informer event handler: in client-go this is
`any` — usually a `*v1.Pod`, but a delete notification may instead carry a
`cache.DeletedFinalStateUnknown` tombstone for an object whose final state is
unknown. -/
inductive EventPayload where
  | pod (p : Pod)
  | deletedFinalStateUnknown (key : String)
deriving DecidableEq

/-- The unchecked Go type assertion `payload.(*v1.Pod)` used by the three
handlers in src/main.go: `none` models the panic raised when the payload is
not a `*v1.Pod`. -/
def assertPod : EventPayload → Option Pod
  | .pod p => some p
  | .deletedFinalStateUnknown _ => none

/-- A log line emitted by an event handler. -/
inductive LogEntry where
  | podCreation (p : SimplePod)
  | podUpdate (old new : SimplePod)
  | podDeletion (p : SimplePod)
deriving DecidableEq

/-- src/main.go `onPodAdd`: asserts the payload is a pod and logs its
SimplePod projection; `none` is the panic of a failed assertion. -/
def onPodAdd (payload : EventPayload) : Option LogEntry :=
  (assertPod payload).map (fun p => .podCreation (SimplePodFromPod p))

/-- src/main.go `onPodUpdate`: asserts both payloads are pods and logs their
SimplePod projections. -/
def onPodUpdate (oldPayload newPayload : EventPayload) : Option LogEntry := do
  let o ← assertPod oldPayload
  let n ← assertPod newPayload
  pure (.podUpdate (SimplePodFromPod o) (SimplePodFromPod n))

/-- src/main.go `onPodDelete`: asserts the payload is a pod and logs its
SimplePod projection; a tombstone payload makes the assertion panic. -/
def onPodDelete (payload : EventPayload) : Option LogEntry :=
  (assertPod payload).map (fun p => .podDeletion (SimplePodFromPod p))

/-- A change notification of the watch subsystem (spec section 3). -/
inductive ChangeEvent where
  | Added (p : Pod)
  | Modified (p : Pod)
  | Deleted (p : Pod)
deriving DecidableEq

/-- A callback invocation recorded by the Event Dispatcher. -/
inductive Invocation where
  | onAdd (p : Pod)
  | onUpdate (old new : Pod)
  | onDelete (p : Pod)
deriving DecidableEq

/-- Insert or replace a pod in the Local Store, keyed by (namespace, name). -/
def storeUpsert (s : List Pod) (p : Pod) : List Pod :=
  if s.any (fun q => podKey q == podKey p) then
    s.map (fun q => if podKey q == podKey p then p else q)
  else s ++ [p]

/-- Remove a pod from the Local Store by identity. -/
def storeRemove (s : List Pod) (k : String × String) : List Pod :=
  s.filter (fun q => podKey q != k)

/-- Modelled from the spec: the Reflector / Local Store / Event Dispatcher
pipeline (spec sections 4.1 and 4.4), whose implementation is the client-go
shared informer and so is not part of this repository.  Each ChangeEvent is
consumed exactly once: applied to the store (upsert on Added / Modified,
remove on Deleted) and turned into exactly one matching callback invocation,
in stream order; onUpdate receives the previous value looked up from the
store. -/
def dispatch : List ChangeEvent → List Pod → List Pod × List Invocation
  | [], s => (s, [])
  | .Added p :: rest, s =>
      let r := dispatch rest (storeUpsert s p)
      (r.1, .onAdd p :: r.2)
  | .Modified p :: rest, s =>
      let old := (s.find? (fun q => podKey q == podKey p)).getD p
      let r := dispatch rest (storeUpsert s p)
      (r.1, .onUpdate old p :: r.2)
  | .Deleted p :: rest, s =>
      let r := dispatch rest (storeRemove s (podKey p))
      (r.1, .onDelete p :: r.2)

/-- The steps a one-shot sequence issues, as determined by its outcome: the
whole order on success, and exactly the prefix ending at the failing step on
failure. -/
def stepsIssued {α : Type} (o : Except StepError α) (order : List Step) :
    List Step :=
  match o with
  | .ok _ => order
  | .error e => order.take (order.indexOf e.step + 1)

/-- A fault environment in which the namespace listing fails with a
transport error. -/
def failListFault : Faults := fun s =>
  match s with
  | .ListNamespaces => some .Unavailable
  | _ => none

lemma Run_shape (c : Cluster) (f : Faults) :
    ((Run c f).trace = [.ListNamespaces] ∧
      ∃ e, (Run c f).outcome = .error ⟨.ListNamespaces, e⟩) ∨
    ((Run c f).trace = [.ListNamespaces, .CreateNamespace] ∧
      ∃ e, (Run c f).outcome = .error ⟨.CreateNamespace, e⟩) ∨
    ((Run c f).trace = [.ListNamespaces, .CreateNamespace, .CreatePod] ∧
      ∃ e, (Run c f).outcome = .error ⟨.CreatePod, e⟩) ∨
    ((Run c f).trace = runOrder ∧
      ∃ e, (Run c f).outcome = .error ⟨.QueryPodsByLabel, e⟩) ∨
    ((Run c f).trace = runOrder ∧ ∃ out, (Run c f).outcome = .ok out) := by
  unfold Run
  cases h1 : withFault f .ListNamespaces (listNamespacesOp c) with
  | error e => simp
  | ok ns =>
    cases h2 : withFault f .CreateNamespace (createNamespaceOp c namespaceName) with
    | error e => simp
    | ok c1 =>
      cases h3 : withFault f .CreatePod (createPodOp c1 helloWorldPod) with
      | error e => simp [h3]
      | ok c2 =>
        cases h4 : withFault f .QueryPodsByLabel
            (listPodsByLabelOp c2 queryLabelKey queryLabelValue) with
        | error e => simp [h3, h4, runOrder]
        | ok matched => simp [h3, h4, runOrder]

lemma Cleanup_shape (c : Cluster) (f : Faults) :
    ((Cleanup c f).trace = [.DeletePod] ∧
      ∃ e, (Cleanup c f).outcome = .error ⟨.DeletePod, e⟩) ∨
    ((Cleanup c f).trace = cleanupOrder ∧
      ∃ e, (Cleanup c f).outcome = .error ⟨.DeleteNamespace, e⟩) ∨
    ((Cleanup c f).trace = cleanupOrder ∧ (Cleanup c f).outcome = .ok ()) := by
  unfold Cleanup
  cases h1 : withFault f .DeletePod (deletePodOp c namespaceName "hello-world") with
  | error e => simp
  | ok c1 =>
    cases h2 : withFault f .DeleteNamespace (deleteNamespaceOp c1 namespaceName) with
    | error e => simp [h2, cleanupOrder]
    | ok c2 => simp [h2, cleanupOrder]

lemma withFault_ok {α : Type} {f : Faults} {s : Step} {r : Except ApiError α}
    {v : α} (h : withFault f s r = .ok v) : r = .ok v := by
  unfold withFault at h
  cases hf : f s with
  | some e => rw [hf] at h; cases h
  | none => rw [hf] at h; exact h

lemma createNamespaceOp_ok {c : Cluster} {name : String} {c' : Cluster}
    (h : createNamespaceOp c name = .ok c') :
    name ∉ c.Namespaces ∧
      c' = { c with Namespaces := c.Namespaces ++ [name] } := by
  unfold createNamespaceOp at h
  split at h
  · cases h
  · exact ⟨by assumption, by injection h with h; exact h.symm⟩

lemma createPodOp_ok {c : Cluster} {p : Pod} {c' : Cluster}
    (h : createPodOp c p = .ok c') :
    c.Pods.any (fun q => q.Namespace == p.Namespace && q.Name == p.Name) = false ∧
      c' = { c with Pods := c.Pods ++ [p] } := by
  unfold createPodOp at h
  split at h
  · cases h
  · rename_i hcond
    constructor
    · rw [← Bool.not_eq_true]; exact hcond
    · injection h with h; exact h.symm

lemma deletePodOp_ok {c : Cluster} {ns name : String} {c' : Cluster}
    (h : deletePodOp c ns name = .ok c') :
    c' = { c with
           Pods := c.Pods.filter
             (fun q => !(q.Namespace == ns && q.Name == name)) } := by
  unfold deletePodOp at h
  split at h
  · injection h with h; exact h.symm
  · cases h

lemma deleteNamespaceOp_ok {c : Cluster} {name : String} {c' : Cluster}
    (h : deleteNamespaceOp c name = .ok c') :
    c' = { c with Namespaces := c.Namespaces.filter (fun n => n != name) } := by
  unfold deleteNamespaceOp at h
  split at h
  · injection h with h; exact h.symm
  · cases h

/-- C1: Run issues list namespaces, create namespace, create pod, query pods
by label in that order, and Cleanup issues delete pod then delete namespace;
on success the full order is issued, on failure exactly the prefix ending at
the failing step (so no step is issued before its predecessor returned
successfully), and no step is ever issued twice. -/
theorem C1_sequence_order (c : Cluster) (f : Faults) :
    (Run c f).trace = stepsIssued (Run c f).outcome runOrder ∧
    (Cleanup c f).trace = stepsIssued (Cleanup c f).outcome cleanupOrder ∧
    (Run c f).trace.Nodup ∧ (Cleanup c f).trace.Nodup := by
  rcases Run_shape c f with ⟨ht, e, ho⟩ | ⟨ht, e, ho⟩ | ⟨ht, e, ho⟩ |
      ⟨ht, e, ho⟩ | ⟨ht, out, ho⟩ <;>
    rcases Cleanup_shape c f with ⟨ht2, e2, ho2⟩ | ⟨ht2, e2, ho2⟩ | ⟨ht2, ho2⟩ <;>
    rw [ht, ho, ht2, ho2] <;>
    refine ⟨?_, ?_, ?_, ?_⟩ <;>
    simp [stepsIssued, runOrder, cleanupOrder]

/-- C2: when a one-shot step of Run or Cleanup fails, the sequence returns an
error identifying the failing step and wrapping its cause, the trace is
exactly the canonical prefix ending at that step (no later step is issued),
and no step is retried. -/
theorem C2_failure_aborts (c : Cluster) (f : Faults) (e e2 : StepError)
    (hR : (Run c f).outcome = .error e)
    (hC : (Cleanup c f).outcome = .error e2) :
    (Run c f).trace = runOrder.take (runOrder.indexOf e.step + 1) ∧
    (Run c f).trace.getLast? = some e.step ∧
    (Run c f).trace.Nodup ∧
    (Cleanup c f).trace = cleanupOrder.take (cleanupOrder.indexOf e2.step + 1) ∧
    (Cleanup c f).trace.getLast? = some e2.step ∧
    (Cleanup c f).trace.Nodup := by
  rcases Run_shape c f with ⟨ht, e', ho⟩ | ⟨ht, e', ho⟩ | ⟨ht, e', ho⟩ |
      ⟨ht, e', ho⟩ | ⟨ht, out, ho⟩ <;>
    rcases Cleanup_shape c f with ⟨ht2, e2', ho2⟩ | ⟨ht2, e2', ho2⟩ | ⟨ht2, ho2⟩ <;>
    rw [ho] at hR <;> rw [ho2] at hC <;>
    first
    | exact Except.noConfusion hR
    | exact Except.noConfusion hC
    | (injection hR with hR
       injection hC with hC
       subst hR
       subst hC
       rw [ht, ht2]
       refine ⟨?_, ?_, ?_, ?_, ?_, ?_⟩ <;>
         first
         | decide
         | (dsimp only; decide))

/-- Witness for C2 at a concrete input: the namespace listing fails with a
transport error, and Cleanup of an empty cluster fails at the pod deletion. -/
theorem C2_failure_aborts_witness :
    (Run ⟨[], []⟩ failListFault).trace =
      runOrder.take (runOrder.indexOf Step.ListNamespaces + 1) ∧
    (Run ⟨[], []⟩ failListFault).trace.getLast? = some Step.ListNamespaces ∧
    (Run ⟨[], []⟩ failListFault).trace.Nodup ∧
    (Cleanup ⟨[], []⟩ failListFault).trace =
      cleanupOrder.take (cleanupOrder.indexOf Step.DeletePod + 1) ∧
    (Cleanup ⟨[], []⟩ failListFault).trace.getLast? = some Step.DeletePod ∧
    (Cleanup ⟨[], []⟩ failListFault).trace.Nodup :=
  C2_failure_aborts ⟨[], []⟩ failListFault ⟨.ListNamespaces, .Unavailable⟩
    ⟨.DeletePod, .NotFound⟩ rfl rfl

/-- C5: the claim says every delivered payload — including a deletion
tombstone that is not a pod — is handled by the callbacks without an
escalating failure.  The code instead performs the unchecked type assertion
`pod.(*v1.Pod)`, which panics on a DeletedFinalStateUnknown tombstone: here
onPodDelete evaluates to `none` (panic) at such a payload, while a genuine
pod payload is logged normally. -/
theorem C5_onPodDelete_tombstone_panics :
    onPodDelete (.deletedFinalStateUnknown "aerospike/hello-world") = none ∧
    onPodUpdate (.pod helloWorldPod) (.deletedFinalStateUnknown "k") = none ∧
    onPodAdd (.pod helloWorldPod) =
      some (.podCreation { Name := "hello-world", Namespace := "aerospike" }) := by
  constructor
  · rfl
  · exact ⟨rfl, rfl⟩

/-- C6: creating the pod {ns:"aerospike", name:"hello-world",
image:"hello-world"} and then deleting it yields, through the dispatch
pipeline, exactly one onAdd invocation carrying that identity and image and
exactly one onDelete invocation, and leaves the local store empty. -/
theorem C6_create_delete_exactly_once :
    (dispatch [.Added helloWorldPod, .Deleted helloWorldPod] []).2 =
      [.onAdd helloWorldPod, .onDelete helloWorldPod] ∧
    ((dispatch [.Added helloWorldPod, .Deleted helloWorldPod] []).2.count
      (.onAdd helloWorldPod)) = 1 ∧
    ((dispatch [.Added helloWorldPod, .Deleted helloWorldPod] []).2.count
      (.onDelete helloWorldPod)) = 1 ∧
    (dispatch [.Added helloWorldPod, .Deleted helloWorldPod] []).1 = [] ∧
    helloWorldPod.Namespace = "aerospike" ∧
    helloWorldPod.Name = "hello-world" ∧
    helloWorldPod.Containers.map Container.Image = ["hello-world"] := by
  refine ⟨rfl, ?_, ?_, rfl, rfl, rfl, rfl⟩ <;> decide

/-- C7: if the hello-world pod is absent from the aerospike namespace when
Cleanup runs, the pod deletion fails with NotFound, Cleanup propagates that
error, the namespace deletion is never issued, and the cluster (in
particular the namespace) is left unchanged. -/
theorem C7_cleanup_notfound (c : Cluster)
    (h : c.Pods.any
      (fun q => q.Namespace == namespaceName && q.Name == "hello-world") = false) :
    (Cleanup c noFaults).outcome = .error ⟨.DeletePod, .NotFound⟩ ∧
    (Cleanup c noFaults).trace = [.DeletePod] ∧
    Step.DeleteNamespace ∉ (Cleanup c noFaults).trace ∧
    (Cleanup c noFaults).cluster = c := by
  unfold Cleanup
  simp [withFault, noFaults, deletePodOp, h]

/-- Witness for C7 at a concrete cluster that has the aerospike namespace
but no hello-world pod. -/
theorem C7_cleanup_notfound_witness :
    (Cleanup ⟨["aerospike"], []⟩ noFaults).outcome =
        .error ⟨.DeletePod, .NotFound⟩ ∧
    (Cleanup ⟨["aerospike"], []⟩ noFaults).trace = [.DeletePod] ∧
    Step.DeleteNamespace ∉ (Cleanup ⟨["aerospike"], []⟩ noFaults).trace ∧
    (Cleanup ⟨["aerospike"], []⟩ noFaults).cluster = ⟨["aerospike"], []⟩ :=
  C7_cleanup_notfound ⟨["aerospike"], []⟩ rfl

lemma Run_ok_char (c : Cluster) (f : Faults) (out : RunOutput)
    (h : (Run c f).outcome = .ok out) :
    namespaceName ∉ c.Namespaces ∧
    c.Pods.any
      (fun q => q.Namespace == namespaceName && q.Name == "hello-world") = false ∧
    Run c f = ⟨runOrder,
      { Namespaces := c.Namespaces ++ [namespaceName],
        Pods := c.Pods ++ [helloWorldPod] },
      .ok ⟨c.Namespaces,
        ((c.Pods ++ [helloWorldPod]).filter
          (labelMatches queryLabelKey queryLabelValue)).map SimplePodFromPod⟩⟩ := by
  unfold Run at h ⊢
  cases h1 : withFault f .ListNamespaces (listNamespacesOp c) with
  | error e => rw [h1] at h; dsimp only at h; exact Except.noConfusion h
  | ok ns =>
    rw [h1] at h
    dsimp only at h ⊢
    have hns : ns = c.Namespaces := by
      have hv := withFault_ok h1
      unfold listNamespacesOp at hv
      injection hv with hv
      exact hv.symm
    subst hns
    cases h2 : withFault f .CreateNamespace (createNamespaceOp c namespaceName) with
    | error e => rw [h2] at h; dsimp only at h; exact Except.noConfusion h
    | ok c1 =>
      rw [h2] at h
      dsimp only at h ⊢
      cases h3 : withFault f .CreatePod (createPodOp c1 helloWorldPod) with
      | error e => rw [h3] at h; dsimp only at h; exact Except.noConfusion h
      | ok c2 =>
        rw [h3] at h
        dsimp only at h ⊢
        cases h4 : withFault f .QueryPodsByLabel
            (listPodsByLabelOp c2 queryLabelKey queryLabelValue) with
        | error e => rw [h4] at h; dsimp only at h; exact Except.noConfusion h
        | ok matched =>
          rw [h4] at h
          dsimp only at h ⊢
          obtain ⟨hn, hc1⟩ := createNamespaceOp_ok (withFault_ok h2)
          obtain ⟨hp, hc2⟩ := createPodOp_ok (withFault_ok h3)
          have hm : matched =
              c2.Pods.filter (labelMatches queryLabelKey queryLabelValue) := by
            have hv := withFault_ok h4
            unfold listPodsByLabelOp at hv
            injection hv with hv
            exact hv.symm
          subst hc1
          subst hc2
          subst hm
          refine ⟨hn, ?_, rfl⟩
          simpa only [helloWorldPod] using hp

lemma Cleanup_ok_char (c : Cluster) (f : Faults)
    (h : (Cleanup c f).outcome = .ok ()) :
    Cleanup c f = ⟨cleanupOrder,
      { Namespaces := c.Namespaces.filter (fun n => n != namespaceName),
        Pods := c.Pods.filter
          (fun q => !(q.Namespace == namespaceName && q.Name == "hello-world")) },
      .ok ()⟩ := by
  unfold Cleanup at h ⊢
  cases h1 : withFault f .DeletePod (deletePodOp c namespaceName "hello-world") with
  | error e => rw [h1] at h; dsimp only at h; exact Except.noConfusion h
  | ok c1 =>
    rw [h1] at h
    dsimp only at h ⊢
    cases h2 : withFault f .DeleteNamespace (deleteNamespaceOp c1 namespaceName) with
    | error e => rw [h2] at h; dsimp only at h; exact Except.noConfusion h
    | ok c2 =>
      rw [h2] at h
      dsimp only at h ⊢
      have hc1 := deletePodOp_ok (withFault_ok h1)
      have hc2 := deleteNamespaceOp_ok (withFault_ok h2)
      subst hc1
      subst hc2
      rfl

/-- C3: starting from a cluster without the aerospike namespace and without a
hello-world pod in it, Run succeeds and the resulting cluster contains the
namespace "aerospike" and a pod named "hello-world" in that namespace whose
spec has exactly one container, with image "hello-world". -/
theorem C3_run_creates_namespace_and_pod (c : Cluster)
    (h1 : namespaceName ∉ c.Namespaces)
    (h2 : c.Pods.any
      (fun q => q.Namespace == namespaceName && q.Name == "hello-world") = false) :
    (∃ out, (Run c noFaults).outcome = .ok out) ∧
    namespaceName ∈ (Run c noFaults).cluster.Namespaces ∧
    ∃ p, p ∈ (Run c noFaults).cluster.Pods ∧
      p.Namespace = namespaceName ∧ p.Name = "hello-world" ∧
      p.Containers.length = 1 ∧
      p.Containers.map Container.Image = ["hello-world"] := by
  have hcond2 : ¬ ((c.Pods.any (fun q =>
      q.Namespace == helloWorldPod.Namespace &&
        q.Name == helloWorldPod.Name)) = true) := by
    simp only [helloWorldPod]
    rw [h2]
    simp
  unfold Run
  simp only [withFault, noFaults, listNamespacesOp, createNamespaceOp,
    createPodOp, listPodsByLabelOp, if_neg h1, if_neg hcond2]
  refine ⟨⟨_, rfl⟩, ?_, helloWorldPod, ?_, rfl, rfl, rfl, rfl⟩
  · simp
  · simp

/-- Witness for C3 at the empty cluster. -/
theorem C3_run_creates_namespace_and_pod_witness :
    (∃ out, (Run ⟨[], []⟩ noFaults).outcome = .ok out) ∧
    namespaceName ∈ (Run ⟨[], []⟩ noFaults).cluster.Namespaces ∧
    ∃ p, p ∈ (Run ⟨[], []⟩ noFaults).cluster.Pods ∧
      p.Namespace = namespaceName ∧ p.Name = "hello-world" ∧
      p.Containers.length = 1 ∧
      p.Containers.map Container.Image = ["hello-world"] :=
  C3_run_creates_namespace_and_pod ⟨[], []⟩ (by simp) rfl

lemma Run_noFaults_char (c : Cluster) (h : namespaceName ∉ c.Namespaces) :
    Run c noFaults = ⟨runOrder,
      { Namespaces := c.Namespaces ++ [namespaceName],
        Pods := c.Pods ++ [helloWorldPod] },
      .ok ⟨c.Namespaces,
        ((c.Pods ++ [helloWorldPod]).filter
          (labelMatches queryLabelKey queryLabelValue)).map SimplePodFromPod⟩⟩ ∨
    Run c noFaults = ⟨[.ListNamespaces, .CreateNamespace, .CreatePod],
      { Namespaces := c.Namespaces ++ [namespaceName], Pods := c.Pods },
      .error ⟨.CreatePod, .AlreadyExists⟩⟩ := by
  unfold Run
  dsimp only [withFault, noFaults, listNamespacesOp, createNamespaceOp]
  rw [if_neg h]
  dsimp only [createPodOp, listPodsByLabelOp, helloWorldPod]
  cases hcol : c.Pods.any (fun q =>
      q.Namespace == namespaceName && q.Name == "hello-world") with
  | false =>
    left
    rw [if_neg (by decide : ¬ ((false : Bool) = true))]
    dsimp only
    simp [helloWorldPod, runOrder]
  | true =>
    right
    rw [if_pos rfl]

/-- C4: if the aerospike namespace does not yet exist, the namespace listing
Run performs before creating it does not contain "aerospike", and a listing
of the state reached after the creation step succeeds contains "aerospike"
exactly once. -/
theorem C4_namespace_listing (c : Cluster) (h : namespaceName ∉ c.Namespaces) :
    (∀ out, (Run c noFaults).outcome = .ok out →
      namespaceName ∉ out.namespaces) ∧
    (Run c noFaults).cluster.Namespaces.count namespaceName = 1 ∧
    listNamespacesOp ((Run c noFaults).cluster) =
      .ok ((Run c noFaults).cluster.Namespaces) := by
  have hcount : (c.Namespaces ++ [namespaceName]).count namespaceName = 1 := by
    rw [List.count_append, List.count_eq_zero.mpr h]
    rfl
  rcases Run_noFaults_char c h with hr | hr
  · rw [hr]
    refine ⟨?_, hcount, rfl⟩
    intro out hout
    injection hout with hout
    rw [← hout]
    exact h
  · rw [hr]
    refine ⟨?_, hcount, rfl⟩
    intro out hout
    exact Except.noConfusion hout

/-- Witness for C4 at a concrete cluster holding only a "default"
namespace. -/
theorem C4_namespace_listing_witness :
    (∀ out, (Run ⟨["default"], []⟩ noFaults).outcome = .ok out →
      namespaceName ∉ out.namespaces) ∧
    (Run ⟨["default"], []⟩ noFaults).cluster.Namespaces.count namespaceName = 1 ∧
    listNamespacesOp ((Run ⟨["default"], []⟩ noFaults).cluster) =
      .ok ((Run ⟨["default"], []⟩ noFaults).cluster.Namespaces) :=
  C4_namespace_listing ⟨["default"], []⟩ (by simp [namespaceName])

lemma simplePods_nodup (l : List Pod) (hk : (l.map podKey).Nodup)
    (p : Pod → Bool) : ((l.filter p).map SimplePodFromPod).Nodup := by
  have hsub : List.Sublist (l.filter p) l := List.filter_sublist l
  have hk2 : ((l.filter p).map podKey).Nodup := (hsub.map podKey).nodup hk
  have hnd : (l.filter p).Nodup := List.Nodup.of_map podKey hk2
  refine hnd.map_on ?_
  intro x hx y hy hxy
  have hkey : podKey x = podKey y := by
    simp only [SimplePodFromPod, SimplePod.mk.injEq] at hxy
    simp only [podKey, hxy.1, hxy.2]
  exact List.inj_on_of_nodup_map hk2 hx hy hkey

/-- C8: the label query Run issues is cluster-wide: the reported pods are
exactly the SimplePod projections of the pods, in any namespace, whose
labels carry k8s-app=kube-dns in the state the query sees, and — when pod
identities in that state are unique — each is reported exactly once. -/
theorem C8_label_query_cluster_wide (c : Cluster) (f : Faults) (out : RunOutput)
    (h : (Run c f).outcome = .ok out) :
    out.pods = ((Run c f).cluster.Pods.filter
        (labelMatches queryLabelKey queryLabelValue)).map SimplePodFromPod ∧
    (∀ sp, sp ∈ out.pods ↔ ∃ p, p ∈ (Run c f).cluster.Pods ∧
        labelMatches queryLabelKey queryLabelValue p = true ∧
        SimplePodFromPod p = sp) ∧
    (((Run c f).cluster.Pods.map podKey).Nodup → out.pods.Nodup) := by
  obtain ⟨hn, hp, hrun⟩ := Run_ok_char c f out h
  have hout : out = ⟨c.Namespaces, ((c.Pods ++ [helloWorldPod]).filter
      (labelMatches queryLabelKey queryLabelValue)).map SimplePodFromPod⟩ := by
    rw [hrun] at h
    dsimp only at h
    injection h with h2
    exact h2.symm
  subst hout
  rw [hrun]
  dsimp only
  refine ⟨rfl, ?_, ?_⟩
  · intro sp
    simp only [List.mem_map, List.mem_filter]
    constructor
    · rintro ⟨p, ⟨hm, hf⟩, he⟩
      exact ⟨p, hm, hf, he⟩
    · rintro ⟨p, hm, hf, he⟩
      exact ⟨p, ⟨hm, hf⟩, he⟩
  · intro hk
    exact simplePods_nodup _ hk _

/-- Witness for C8: a dns pod labelled k8s-app=kube-dns that lives in the
kube-system namespace — not in aerospike — is reported by the query. -/
theorem C8_label_query_cluster_wide_witness :
    (⟨["default"], [⟨"coredns", "kube-system"⟩]⟩ : RunOutput).pods =
      ((Run ⟨["default"],
          [⟨"coredns", "kube-system", [("k8s-app", "kube-dns")], []⟩]⟩
          noFaults).cluster.Pods.filter
        (labelMatches queryLabelKey queryLabelValue)).map SimplePodFromPod ∧
    (∀ sp, sp ∈ (⟨["default"], [⟨"coredns", "kube-system"⟩]⟩ : RunOutput).pods ↔
      ∃ p, p ∈ (Run ⟨["default"],
          [⟨"coredns", "kube-system", [("k8s-app", "kube-dns")], []⟩]⟩
          noFaults).cluster.Pods ∧
        labelMatches queryLabelKey queryLabelValue p = true ∧
        SimplePodFromPod p = sp) ∧
    (((Run ⟨["default"],
        [⟨"coredns", "kube-system", [("k8s-app", "kube-dns")], []⟩]⟩
        noFaults).cluster.Pods.map podKey).Nodup →
      (⟨["default"], [⟨"coredns", "kube-system"⟩]⟩ : RunOutput).pods.Nodup) :=
  C8_label_query_cluster_wide
    ⟨["default"], [⟨"coredns", "kube-system", [("k8s-app", "kube-dns")], []⟩]⟩
    noFaults ⟨["default"], [⟨"coredns", "kube-system"⟩]⟩ rfl

/-- C9: when Run returns an error, the process logs fatally and exits
non-zero without ever invoking Cleanup: no delete step is issued and the
cluster is left exactly as the failed Run left it. -/
theorem C9_run_failure_skips_cleanup (c : Cluster) (f : Faults) (e : StepError)
    (h : (Run c f).outcome = .error e) :
    (mainModel c f).exit = .fatal "failed to run Aerospike Code Challenge" ∧
    (mainModel c f).trace = (Run c f).trace ∧
    Step.DeletePod ∉ (mainModel c f).trace ∧
    Step.DeleteNamespace ∉ (mainModel c f).trace ∧
    (mainModel c f).cluster = (Run c f).cluster := by
  have hnp : Step.DeletePod ∉ (Run c f).trace ∧
      Step.DeleteNamespace ∉ (Run c f).trace := by
    rcases Run_shape c f with ⟨ht, _, _⟩ | ⟨ht, _, _⟩ | ⟨ht, _, _⟩ | ⟨ht, _, _⟩ |
        ⟨ht, _, _⟩ <;> rw [ht] <;> exact ⟨by decide, by decide⟩
  have hm : mainModel c f =
      ⟨(Run c f).trace, (Run c f).cluster,
        .fatal "failed to run Aerospike Code Challenge"⟩ := by
    simp only [mainModel]
    rw [h]
  rw [hm]
  exact ⟨rfl, rfl, hnp.1, hnp.2, rfl⟩

/-- Witness for C9: a transport failure on the namespace listing makes Run
fail; main then exits fatally without any delete step. -/
theorem C9_run_failure_skips_cleanup_witness :
    (mainModel ⟨[], []⟩ failListFault).exit =
      .fatal "failed to run Aerospike Code Challenge" ∧
    (mainModel ⟨[], []⟩ failListFault).trace =
      (Run ⟨[], []⟩ failListFault).trace ∧
    Step.DeletePod ∉ (mainModel ⟨[], []⟩ failListFault).trace ∧
    Step.DeleteNamespace ∉ (mainModel ⟨[], []⟩ failListFault).trace ∧
    (mainModel ⟨[], []⟩ failListFault).cluster =
      (Run ⟨[], []⟩ failListFault).cluster :=
  C9_run_failure_skips_cleanup ⟨[], []⟩ failListFault
    ⟨.ListNamespaces, .Unavailable⟩ rfl

/-- C10: a successful Run followed by a successful Cleanup restores the
cluster exactly: beyond the aerospike namespace and the hello-world pod,
which are created and then deleted, every namespace and every pod present
before is present, unchanged, afterward. -/
theorem C10_frame_preservation (c : Cluster) (f : Faults)
    (h : (mainModel c f).exit = .success) :
    (mainModel c f).cluster = c ∧
    (∀ n, n ∈ (mainModel c f).cluster.Namespaces ↔ n ∈ c.Namespaces) ∧
    (∀ p, p ∈ (mainModel c f).cluster.Pods ↔ p ∈ c.Pods) := by
  simp only [mainModel] at h ⊢
  cases ho : (Run c f).outcome with
  | error e => rw [ho] at h; dsimp only at h; exact ProcessExit.noConfusion h
  | ok out =>
    rw [ho] at h
    dsimp only at h ⊢
    cases ho2 : (Cleanup (Run c f).cluster f).outcome with
    | error e => rw [ho2] at h; dsimp only at h; exact ProcessExit.noConfusion h
    | ok u =>
      cases u
      rw [ho2] at h
      dsimp only at h ⊢
      obtain ⟨hn, hp, hrun⟩ := Run_ok_char c f out ho
      have hcl : (Run c f).cluster =
          ⟨c.Namespaces ++ [namespaceName], c.Pods ++ [helloWorldPod]⟩ := by
        rw [hrun]
      rw [hcl] at ho2
      have hclean := Cleanup_ok_char _ f ho2
      have e1 : (c.Namespaces ++ [namespaceName]).filter
          (fun n => n != namespaceName) = c.Namespaces := by
        rw [List.filter_append]
        have hs : [namespaceName].filter (fun n => n != namespaceName) = [] := by
          decide
        rw [hs, List.append_nil]
        refine List.filter_eq_self.mpr (fun a ha => ?_)
        show (a != namespaceName) = true
        rw [bne_iff_ne]
        intro hEq
        exact hn (hEq ▸ ha)
      have e2 : (c.Pods ++ [helloWorldPod]).filter
          (fun q => !(q.Namespace == namespaceName &&
            q.Name == "hello-world")) = c.Pods := by
        rw [List.filter_append]
        have hs : [helloWorldPod].filter
            (fun q => !(q.Namespace == namespaceName &&
              q.Name == "hello-world")) = [] := by
          decide
        rw [hs, List.append_nil]
        refine List.filter_eq_self.mpr (fun a ha => ?_)
        show (!(a.Namespace == namespaceName && a.Name == "hello-world")) = true
        cases hb : (a.Namespace == namespaceName && a.Name == "hello-world") with
        | false => rfl
        | true =>
          have htrue : c.Pods.any (fun q =>
              q.Namespace == namespaceName && q.Name == "hello-world") = true :=
            List.any_eq_true.mpr ⟨a, ha, hb⟩
          rw [hp] at htrue
          exact Bool.noConfusion htrue
      have hfinal : (Cleanup (⟨c.Namespaces ++ [namespaceName],
          c.Pods ++ [helloWorldPod]⟩ : Cluster) f).cluster = c := by
        rw [hclean]
        dsimp only
        rw [e1, e2]
      rw [hcl]
      refine ⟨hfinal, fun n => by rw [hfinal], fun p => by rw [hfinal]⟩

/-- Witness for C10 at a concrete cluster holding only a "default"
namespace. -/
theorem C10_frame_preservation_witness :
    (mainModel ⟨["default"], []⟩ noFaults).cluster = ⟨["default"], []⟩ ∧
    (∀ n, n ∈ (mainModel ⟨["default"], []⟩ noFaults).cluster.Namespaces ↔
      n ∈ (⟨["default"], []⟩ : Cluster).Namespaces) ∧
    (∀ p, p ∈ (mainModel ⟨["default"], []⟩ noFaults).cluster.Pods ↔
      p ∈ (⟨["default"], []⟩ : Cluster).Pods) :=
  C10_frame_preservation ⟨["default"], []⟩ noFaults (by decide)

end Aerospike
